import Mathlib

/-!
Shallow embedding of the CSE-434 storage-manager core (`src/common.py`,
`src/manager.py`): the wire codec (big-endian packing helpers, the decoding
`Cursor`), the in-memory `Registry`, and the per-connection request
dispatcher, together with proofs about them.

Modelling conventions:
* Bytes are natural numbers; a Python `bytes` value is a `List Nat` whose
  elements are < 256 wherever the encoders produce them.
* A Python `str` is represented by its UTF-8 encoding (`List Nat`), so
  `s.encode("utf-8")` is the identity and `bytes.decode("utf-8")` on a
  complete slice returns the slice.
* Python code that raises (`ValueError`, `struct.error`) is modelled with
  `Except String`; the error string is the exception message.
-/

/-- Big-endian representation of `x` in `w` bytes: the layout produced by
`struct.pack` with formats `>B`, `>H`, `>I`, `>Q` for in-range inputs. -/
def beBytes : Nat → Nat → List Nat
  | 0, _ => []
  | w + 1, x => beBytes w (x / 256) ++ [x % 256]

/-- Value of a big-endian byte string: the layout read by `struct.unpack_from`
with formats `>B`, `>H`, `>I`, `>Q`. -/
def beVal (bs : List Nat) : Nat := bs.foldl (fun a b => a * 256 + b) 0

theorem length_beBytes (w x : Nat) : (beBytes w x).length = w := by
  induction w generalizing x with
  | zero => simp [beBytes]
  | succ w ih => simp [beBytes, ih]

theorem beVal_append_one (l : List Nat) (b : Nat) :
    beVal (l ++ [b]) = beVal l * 256 + b := by
  simp [beVal, List.foldl_append]

theorem beVal_beBytes (w x : Nat) (h : x < 256 ^ w) : beVal (beBytes w x) = x := by
  induction w generalizing x with
  | zero =>
    interval_cases x
    simp [beBytes, beVal]
  | succ w ih =>
    have hx : x / 256 < 256 ^ w := by
      rw [Nat.div_lt_iff_lt_mul (by norm_num)]
      calc x < 256 ^ (w + 1) := h
        _ = 256 ^ w * 256 := by ring
    rw [beBytes, beVal_append_one, ih _ hx]
    omega

/-- Model of `pack_u8` from `src/common.py`: `struct.pack(">B", x)`; raises
(`struct.error`) when the value does not fit. -/
def pack_u8 (x : Nat) : Except String (List Nat) :=
  if x < 2 ^ 8 then .ok (beBytes 1 x) else .error "u8 out of range"

/-- Model of `pack_u16` from `src/common.py`: `struct.pack(">H", x)`. -/
def pack_u16 (x : Nat) : Except String (List Nat) :=
  if x < 2 ^ 16 then .ok (beBytes 2 x) else .error "u16 out of range"

/-- Model of `pack_u32` from `src/common.py`: `struct.pack(">I", x)`. -/
def pack_u32 (x : Nat) : Except String (List Nat) :=
  if x < 2 ^ 32 then .ok (beBytes 4 x) else .error "u32 out of range"

/-- Model of `pack_u64` from `src/common.py`: `struct.pack(">Q", x)`. -/
def pack_u64 (x : Nat) : Except String (List Nat) :=
  if x < 2 ^ 64 then .ok (beBytes 8 x) else .error "u64 out of range"

/-- Model of `pack_str` from `src/common.py`.  The argument is the UTF-8 encoding `b`
of the Python string (`b = s.encode("utf-8")`): a 16-bit length check
followed by `pack_u16(len(b)) + b`. -/
def pack_str (s : List Nat) : Except String (List Nat) :=
  if s.length > 0xFFFF then .error "string too long"
  else (pack_u16 s.length).bind fun pre => .ok (pre ++ s)

/-- The `out.extend(pack_u32(v) for v in values)` loop of `pack_u32_list`:
encode each element in order and concatenate, propagating the first
failure. -/
def packList (f : Nat → Except String (List Nat)) : List Nat → Except String (List Nat)
  | [] => .ok []
  | v :: vs => (f v).bind fun b => (packList f vs).bind fun rest => .ok (b ++ rest)

/-- Model of `pack_u32_list` from `src/common.py`: a 16-bit count check, then the
count followed by each value as a big-endian u32. -/
def pack_u32_list (values : List Nat) : Except String (List Nat) :=
  if values.length > 0xFFFF then .error "list too long"
  else (pack_u16 values.length).bind fun pre =>
    (packList pack_u32 values).bind fun body => .ok (pre ++ body)

/-- The decoding cursor of `src/common.py`: a fixed byte buffer `data` and a
current offset `off`. -/
structure Cursor where
  data : List Nat
  off : Nat
deriving DecidableEq

/-- A stateful read over a `Cursor`, returning the value and the advanced
cursor, or the raised exception message. -/
abbrev ReadM (α : Type) := Cursor → Except String (α × Cursor)

/-- Model of `Cursor.need` from `src/common.py`: raise `ValueError("truncated payload")`
unless `n` more bytes remain. -/
def Cursor.need (c : Cursor) (n : Nat) : Except String Unit :=
  if c.off + n > c.data.length then .error "truncated payload" else .ok ()

/-- Read `n` raw bytes after a bounds check, advancing the offset: the common
`self.need(n); self.data[self.off:self.off+n]; self.off += n` pattern of the
cursor methods. -/
def Cursor.rawBytes (n : Nat) : ReadM (List Nat) := fun c =>
  (c.need n).bind fun _ => .ok ((c.data.drop c.off).take n, ⟨c.data, c.off + n⟩)

/-- Read a `w`-byte big-endian unsigned integer: `self.need(w)` then
`struct.unpack_from` at the current offset, advancing by `w`. -/
def Cursor.readBE (w : Nat) : ReadM Nat := fun c =>
  (Cursor.rawBytes w c).bind fun p => .ok (beVal p.1, p.2)

/-- Model of `Cursor.u8` from `src/common.py`. -/
def Cursor.u8 : ReadM Nat := Cursor.readBE 1

/-- Model of `Cursor.u16` from `src/common.py`. -/
def Cursor.u16 : ReadM Nat := Cursor.readBE 2

/-- Model of `Cursor.u32` from `src/common.py`. -/
def Cursor.u32 : ReadM Nat := Cursor.readBE 4

/-- Model of `Cursor.u64` from `src/common.py`. -/
def Cursor.u64 : ReadM Nat := Cursor.readBE 8

/-- Model of `Cursor.str` from `src/common.py`: a u16 length, a bounds check, then
that many content bytes (returned as the string's UTF-8 encoding). -/
def Cursor.str : ReadM (List Nat) := fun c =>
  (Cursor.u16 c).bind fun p => Cursor.rawBytes p.1 p.2

/-- The `for _ in range(n): out.append(self.u32())` loop of
`Cursor.u32_list`. -/
def Cursor.readU32s : Nat → ReadM (List Nat)
  | 0 => fun c => .ok ([], c)
  | n + 1 => fun c =>
    (Cursor.u32 c).bind fun p =>
    (Cursor.readU32s n p.2).bind fun q =>
    .ok (p.1 :: q.1, q.2)

/-- Model of `Cursor.u32_list` from `src/common.py`: a u16 count then that many u32
values. -/
def Cursor.u32_list : ReadM (List Nat) := fun c =>
  (Cursor.u16 c).bind fun p => Cursor.readU32s p.1 p.2

/-- Well-behavedness of a cursor read with respect to truncation of the
underlying buffer: a successful read leaves the buffer unchanged, only
advances the offset, fails with the truncated-payload error on any buffer
truncated strictly before its end position, and succeeds identically on any
buffer truncated at or after its end position. -/
def GoodRead {α : Type} (R : ReadM α) : Prop :=
  ∀ d o v d2 o2, R ⟨d, o⟩ = .ok (v, ⟨d2, o2⟩) →
    d2 = d ∧ o ≤ o2 ∧
    (∀ k, o ≤ k → k < o2 → k ≤ d.length →
      R ⟨d.take k, o⟩ = .error "truncated payload") ∧
    (∀ k, o2 ≤ k → k ≤ d.length →
      R ⟨d.take k, o⟩ = .ok (v, ⟨d.take k, o2⟩))

theorem goodRead_pure {α : Type} (a : α) : GoodRead (fun c => .ok (a, c)) := by
  rintro d o v d2 o2 h
  simp only [Except.ok.injEq, Prod.mk.injEq, Cursor.mk.injEq] at h
  obtain ⟨hv, hd, ho⟩ := h
  subst hv; subst hd; subst ho
  refine ⟨rfl, le_refl _, ?_, ?_⟩
  · intro k hk1 hk2 _
    omega
  · intro k _ _
    rfl

theorem goodRead_rawBytes (n : Nat) : GoodRead (Cursor.rawBytes n) := by
  rintro d o v d2 o2 h
  rw [Cursor.rawBytes, Cursor.need] at h
  by_cases hb : o + n > d.length
  · rw [if_pos hb] at h
    exact absurd h (by simp [Except.bind])
  · rw [if_neg hb] at h
    simp only [Except.bind, Except.ok.injEq, Prod.mk.injEq, Cursor.mk.injEq] at h
    obtain ⟨hv, hd, ho⟩ := h
    subst hv; subst hd; subst ho
    refine ⟨rfl, by omega, ?_, ?_⟩
    · intro k hk1 hk2 hk3
      rw [Cursor.rawBytes, Cursor.need]
      have hcond : o + n > (d.take k).length := by
        simp only [List.length_take]
        omega
      rw [if_pos hcond]
      rfl
    · intro k hk1 hk2
      rw [Cursor.rawBytes, Cursor.need]
      have hcond : ¬ o + n > (d.take k).length := by
        simp only [List.length_take]
        omega
      rw [if_neg hcond]
      have hbytes : ((d.take k).drop o).take n = (d.drop o).take n := by
        rw [List.drop_take, List.take_take]
        congr 1
        omega
      simp only [Except.bind, hbytes]

theorem goodRead_bind {α β : Type} {R : ReadM α} {S : α → ReadM β}
    (hR : GoodRead R) (hS : ∀ a, GoodRead (S a)) :
    GoodRead (fun c => (R c).bind fun p => S p.1 p.2) := by
  rintro d o v d2 o2 h
  simp only at h
  cases hr : R ⟨d, o⟩ with
  | error e =>
    rw [hr] at h
    exact absurd h (by simp [Except.bind])
  | ok p =>
    rw [hr] at h
    simp only [Except.bind] at h
    obtain ⟨a, d1, o1⟩ := p
    simp only at h
    obtain ⟨hd1, ho1, herr1, hok1⟩ := hR d o a d1 o1 hr
    rw [hd1] at h
    obtain ⟨hd2, ho2, herr2, hok2⟩ := hS a d o1 v d2 o2 h
    refine ⟨hd2, by omega, ?_, ?_⟩
    · intro k hk1 hk2 hk3
      by_cases hko : k < o1
      · simp only
        rw [herr1 k hk1 hko hk3]
        rfl
      · simp only
        rw [hok1 k (by omega) hk3]
        simp only [Except.bind]
        exact herr2 k (by omega) hk2 hk3
    · intro k hk1 hk2
      simp only
      rw [hok1 k (by omega) hk2]
      simp only [Except.bind]
      exact hok2 k hk1 hk2

theorem goodRead_readBE (w : Nat) : GoodRead (Cursor.readBE w) :=
  goodRead_bind (goodRead_rawBytes w) (fun a => goodRead_pure (beVal a))

theorem goodRead_str : GoodRead Cursor.str :=
  goodRead_bind (goodRead_readBE 2) (fun n => goodRead_rawBytes n)

theorem goodRead_readU32s (n : Nat) : GoodRead (Cursor.readU32s n) := by
  induction n with
  | zero => exact goodRead_pure []
  | succ n ih =>
    exact goodRead_bind (goodRead_readBE 4)
      (fun a => goodRead_bind ih (fun b => goodRead_pure (a :: b)))

theorem goodRead_u32_list : GoodRead Cursor.u32_list :=
  goodRead_bind (goodRead_readBE 2) (fun n => goodRead_readU32s n)

/-- Model of `dec_register_user_req` from `src/manager.py`: `name = c.str()`,
`listen_port = c.u16()`.  The final cursor is returned alongside the fields
so that consumption can be stated. -/
def dec_register_user_req : ReadM (List Nat × Nat) := fun c =>
  (Cursor.str c).bind fun p =>
  (Cursor.u16 p.2).bind fun q =>
  .ok ((p.1, q.1), q.2)

/-- Model of `dec_register_disk_req` from `src/manager.py`: name, listen port,
capacity (u64), zone. -/
def dec_register_disk_req : ReadM (List Nat × Nat × Nat × List Nat) := fun c =>
  (Cursor.str c).bind fun p =>
  (Cursor.u16 p.2).bind fun q =>
  (Cursor.u64 q.2).bind fun r =>
  (Cursor.str r.2).bind fun z =>
  .ok ((p.1, q.1, r.1, z.1), z.2)

/-- Model of `dec_configure_req` from `src/manager.py`: `n = c.u16()`, policy string,
constraints string. -/
def dec_configure_req : ReadM (Nat × List Nat × List Nat) := fun c =>
  (Cursor.u16 c).bind fun p =>
  (Cursor.str p.2).bind fun q =>
  (Cursor.str q.2).bind fun r =>
  .ok ((p.1, q.1, r.1), r.2)

/-- Model of `dec_deregister_user_req` from `src/manager.py`: a single u32. -/
def dec_deregister_user_req : ReadM Nat := fun c => Cursor.u32 c

/-- Model of `dec_deregister_disk_req` from `src/manager.py`: a single u32. -/
def dec_deregister_disk_req : ReadM Nat := fun c => Cursor.u32 c

theorem goodRead_dec_register_user_req : GoodRead dec_register_user_req :=
  goodRead_bind goodRead_str
    (fun name => goodRead_bind (goodRead_readBE 2)
      (fun port => goodRead_pure ((name, port))))

theorem goodRead_dec_register_disk_req : GoodRead dec_register_disk_req :=
  goodRead_bind goodRead_str
    (fun name => goodRead_bind (goodRead_readBE 2)
      (fun port => goodRead_bind (goodRead_readBE 8)
        (fun cap => goodRead_bind goodRead_str
          (fun zone => goodRead_pure ((name, port, cap, zone))))))

theorem goodRead_dec_configure_req : GoodRead dec_configure_req :=
  goodRead_bind (goodRead_readBE 2)
    (fun n => goodRead_bind goodRead_str
      (fun pol => goodRead_bind goodRead_str
        (fun con => goodRead_pure ((n, pol, con)))))

theorem goodRead_dec_deregister_user_req : GoodRead dec_deregister_user_req :=
  goodRead_readBE 4

theorem goodRead_dec_deregister_disk_req : GoodRead dec_deregister_disk_req :=
  goodRead_readBE 4

/-! ## Registry and dispatcher (`src/manager.py`)

The Python `Registry` guards every operation with one lock, so each
operation is atomic; the embedding models each operation as a pure function
from registry state to (result, new state).  The insertion-ordered Python
`dict` values are modelled as a list of records in insertion order, keyed by
the record's own id field (`pop(k)` = filter the key out; `values()` = the
list itself). -/

/-- Protocol status codes (`Status` in `src/common.py`). -/
inductive Status where
  | OK
  | INVALID_ARGUMENT
  | ALREADY_REGISTERED
  | NOT_REGISTERED
  | INSUFFICIENT_RESOURCES
  | INTERNAL_ERROR
deriving DecidableEq

/-- Wire value of a status code (`IntEnum` values in `src/common.py`). -/
def Status.toNat : Status → Nat
  | .OK => 0
  | .INVALID_ARGUMENT => 1
  | .ALREADY_REGISTERED => 2
  | .NOT_REGISTERED => 3
  | .INSUFFICIENT_RESOURCES => 4
  | .INTERNAL_ERROR => 5

/-! Message-type codes (`MsgType` in `src/common.py`). -/

namespace MsgType

def REGISTER_USER_REQ : Nat := 0x10

def REGISTER_USER_RESP : Nat := 0x11

def REGISTER_DISK_REQ : Nat := 0x20

def REGISTER_DISK_RESP : Nat := 0x21

def CONFIGURE_DSS_REQ : Nat := 0x30

def CONFIGURE_DSS_RESP : Nat := 0x31

def DEREGISTER_USER_REQ : Nat := 0x40

def DEREGISTER_USER_RESP : Nat := 0x41

def DEREGISTER_DISK_REQ : Nat := 0x50

def DEREGISTER_DISK_RESP : Nat := 0x51

def ERROR_RESP : Nat := 0x7F

end MsgType

/-- A user record (`self.users[uid] = {...}` in `Registry.register_user`). -/
structure UserRec where
  user_id : Nat
  name : List Nat
  addr : List Nat
  port : Nat
  status : String
deriving DecidableEq

/-- A disk record (`self.disks[did] = {...}` in `Registry.register_disk`). -/
structure DiskRec where
  disk_id : Nat
  name : List Nat
  addr : List Nat
  port : Nat
  capacity : Nat
  zone : List Nat
  status : String
deriving DecidableEq

/-- The manager's registry state (`Registry.__init__`). -/
structure Registry where
  next_user_id : Nat
  next_disk_id : Nat
  next_dss_id : Nat
  users : List UserRec
  disks : List DiskRec
deriving DecidableEq

/-- The freshly constructed registry: counters at 1, empty collections. -/
def Registry.init : Registry := ⟨1, 1, 1, [], []⟩

/-- Model of `Registry.register_user`: assign the next user id, bump the counter,
append the record, return the id. -/
def Registry.register_user (r : Registry) (name addr : List Nat) (port : Nat) :
    Nat × Registry :=
  (r.next_user_id,
    { r with
      next_user_id := r.next_user_id + 1,
      users := r.users ++ [⟨r.next_user_id, name, addr, port, "READY"⟩] })

/-- Model of `Registry.deregister_user`: `self.users.pop(user_id, None) is not None` —
report presence and remove the record if present. -/
def Registry.deregister_user (r : Registry) (user_id : Nat) : Bool × Registry :=
  (r.users.any (fun u => u.user_id == user_id),
    { r with users := r.users.filter (fun u => u.user_id != user_id) })

/-- Model of `Registry.register_disk`: assign the next disk id, bump the counter,
append the record, return the id. -/
def Registry.register_disk (r : Registry) (name addr : List Nat)
    (port capacity : Nat) (zone : List Nat) : Nat × Registry :=
  (r.next_disk_id,
    { r with
      next_disk_id := r.next_disk_id + 1,
      disks := r.disks ++ [⟨r.next_disk_id, name, addr, port, capacity, zone, "READY"⟩] })

/-- Model of `Registry.deregister_disk`: report presence and remove the record if
present. -/
def Registry.deregister_disk (r : Registry) (disk_id : Nat) : Bool × Registry :=
  (r.disks.any (fun d => d.disk_id == disk_id),
    { r with disks := r.disks.filter (fun d => d.disk_id != disk_id) })

/-- Model of `Registry.allocate_disks`: `ready = [d["disk_id"] for d in
self.disks.values()]`; `None` if fewer than `n`, else the first `n` ids in
insertion order. -/
def Registry.allocate_disks (r : Registry) (n : Nat) : Option (List Nat) :=
  let ready := r.disks.map (fun d => d.disk_id)
  if ready.length < n then none else some (ready.take n)

/-- A decoded response payload as built by the `enc_*` helpers of
`src/manager.py` (status byte plus the type-specific fields). -/
inductive Resp where
  | registerUserResp (st : Status) (user_id : Nat)
  | registerDiskResp (st : Status) (disk_id : Nat)
  | configureResp (st : Status) (dss_id : Nat) (disk_ids : List Nat)
  | simpleStatus (st : Status)
  | errorResp (st : Status) (msg : String)
deriving DecidableEq

/-- Result of handling one received frame inside `handle_conn`'s loop:
either a response frame is sent (`send_msg`) and the loop continues, or an
exception escapes the dispatch (it is neither `ConnectionError` nor
`OSError`, so the `except` clause does not catch it), no response is sent,
the loop terminates and `finally: conn.close()` closes the connection. -/
inductive HandleResult where
  | reply (msg_type : Nat) (txn_id : Nat) (resp : Resp) (s : Registry)
  | abort (s : Registry)
deriving DecidableEq

/-- One iteration of the dispatch `while True:` loop in `handle_conn`
(`src/manager.py`), applied to a decoded frame `(msg_type, txn_id, payload)`
with connection peer address `addr` and registry state `s`. -/
def handle_msg (s : Registry) (addr : List Nat) (msg_type txn_id : Nat)
    (payload : List Nat) : HandleResult :=
  if msg_type = MsgType.REGISTER_USER_REQ then
    match dec_register_user_req ⟨payload, 0⟩ with
    | .error e => .reply MsgType.ERROR_RESP txn_id (.errorResp .INVALID_ARGUMENT e) s
    | .ok ((name, listen_port), _) =>
      if name = [] ∨ listen_port = 0 then
        .reply MsgType.ERROR_RESP txn_id (.errorResp .INVALID_ARGUMENT "missing name/port") s
      else
        let p := s.register_user name addr listen_port
        .reply MsgType.REGISTER_USER_RESP txn_id (.registerUserResp .OK p.1) p.2
  else if msg_type = MsgType.DEREGISTER_USER_REQ then
    match dec_deregister_user_req ⟨payload, 0⟩ with
    | .error _ => .abort s
    | .ok (uid, _) =>
      let p := s.deregister_user uid
      .reply MsgType.DEREGISTER_USER_RESP txn_id
        (.simpleStatus (if p.1 then .OK else .NOT_REGISTERED)) p.2
  else if msg_type = MsgType.REGISTER_DISK_REQ then
    match dec_register_disk_req ⟨payload, 0⟩ with
    | .error e => .reply MsgType.ERROR_RESP txn_id (.errorResp .INVALID_ARGUMENT e) s
    | .ok ((name, listen_port, capacity, zone), _) =>
      if name = [] ∨ listen_port = 0 ∨ capacity = 0 then
        .reply MsgType.ERROR_RESP txn_id (.errorResp .INVALID_ARGUMENT "bad disk args") s
      else
        let p := s.register_disk name addr listen_port capacity zone
        .reply MsgType.REGISTER_DISK_RESP txn_id (.registerDiskResp .OK p.1) p.2
  else if msg_type = MsgType.DEREGISTER_DISK_REQ then
    match dec_deregister_disk_req ⟨payload, 0⟩ with
    | .error _ => .abort s
    | .ok (did, _) =>
      let p := s.deregister_disk did
      .reply MsgType.DEREGISTER_DISK_RESP txn_id
        (.simpleStatus (if p.1 then .OK else .NOT_REGISTERED)) p.2
  else if msg_type = MsgType.CONFIGURE_DSS_REQ then
    match dec_configure_req ⟨payload, 0⟩ with
    | .error _ => .abort s
    | .ok ((n, _policy, _constraints), _) =>
      if n = 0 then
        .reply MsgType.CONFIGURE_DSS_RESP txn_id
          (.configureResp .INVALID_ARGUMENT 0 []) s
      else
        match s.allocate_disks n with
        | none =>
          .reply MsgType.CONFIGURE_DSS_RESP txn_id
            (.configureResp .INSUFFICIENT_RESOURCES 0 []) s
        | some [] =>
          .reply MsgType.CONFIGURE_DSS_RESP txn_id
            (.configureResp .INSUFFICIENT_RESOURCES 0 []) s
        | some (d :: ds) =>
          .reply MsgType.CONFIGURE_DSS_RESP txn_id
            (.configureResp .OK s.next_dss_id (d :: ds))
            { s with next_dss_id := s.next_dss_id + 1 }
  else
    .reply MsgType.ERROR_RESP txn_id (.errorResp .INVALID_ARGUMENT "unknown msg_type") s

/-- The dispatch loop of `handle_conn` applied to a list of incoming frames:
returns the response frames sent, the final registry state, and whether the
loop was terminated by an uncaught exception (connection closed with
remaining frames unprocessed). -/
def handle_loop (addr : List Nat) :
    Registry → List (Nat × Nat × List Nat) → List (Nat × Nat × Resp) × Registry × Bool
  | s, [] => ([], s, false)
  | s, (mt, txn, pb) :: rest =>
    match handle_msg s addr mt txn pb with
    | .reply rmt rtxn resp s2 =>
      let t := handle_loop addr s2 rest
      ((rmt, rtxn, resp) :: t.1, t.2)
    | .abort s2 => ([], s2, true)

/-- An abstract registry operation, as invoked by the dispatcher: the four
register/deregister operations plus the configure-DSS step (allocation
followed, on success, by the DSS-id increment). -/
inductive Op where
  | regUser (name addr : List Nat) (port : Nat)
  | deregUser (user_id : Nat)
  | regDisk (name addr : List Nat) (port capacity : Nat) (zone : List Nat)
  | deregDisk (disk_id : Nat)
  | configure (n : Nat)

/-- The state effect of one operation (its result discarded); `configure`
mirrors the CONFIGURE_DSS_REQ branch of `handle_conn`. -/
def applyOp (s : Registry) : Op → Registry
  | .regUser nm a p => (s.register_user nm a p).2
  | .deregUser uid => (s.deregister_user uid).2
  | .regDisk nm a p cap z => (s.register_disk nm a p cap z).2
  | .deregDisk did => (s.deregister_disk did).2
  | .configure n =>
    if n = 0 then s
    else
      match s.allocate_disks n with
      | none => s
      | some [] => s
      | some (_ :: _) => { s with next_dss_id := s.next_dss_id + 1 }

/-- Apply a sequence of operations in order. -/
def applyOps (s : Registry) (ops : List Op) : Registry := ops.foldl applyOp s

/-- A registry state reachable from the initial state by some operation
sequence. -/
def Reachable (s : Registry) : Prop := ∃ ops, applyOps Registry.init ops = s

/-- Registry invariant: disk records are stored in strictly increasing id
order, and every stored disk id is below the `next_disk_id` counter. -/
def DiskInv (s : Registry) : Prop :=
  s.disks.Pairwise (fun a b => a.disk_id < b.disk_id) ∧
  ∀ d ∈ s.disks, d.disk_id < s.next_disk_id

theorem allocate_disks_eq (s : Registry) (n : Nat) :
    s.allocate_disks n =
      if (s.disks.map (fun d => d.disk_id)).length < n then none
      else some ((s.disks.map (fun d => d.disk_id)).take n) := rfl

theorem diskInv_init : DiskInv Registry.init := by
  constructor
  · simp [Registry.init]
  · simp [Registry.init]

theorem diskInv_applyOp (s : Registry) (op : Op) (h : DiskInv s) :
    DiskInv (applyOp s op) := by
  obtain ⟨hp, hb⟩ := h
  cases op with
  | regUser nm a p => exact ⟨hp, hb⟩
  | deregUser uid => exact ⟨hp, hb⟩
  | regDisk nm a p cap z =>
    constructor
    · rw [applyOp, Registry.register_disk]
      simp only [List.pairwise_append]
      refine ⟨hp, by simp, ?_⟩
      intro x hx y hy
      simp only [List.mem_singleton] at hy
      subst hy
      exact hb x hx
    · intro d hd
      rw [applyOp, Registry.register_disk] at hd
      simp only [List.mem_append, List.mem_singleton] at hd
      rw [applyOp, Registry.register_disk]
      simp only
      rcases hd with hd | hd
      · have := hb d hd
        omega
      · subst hd
        simp
  | deregDisk did =>
    constructor
    · exact hp.filter _
    · intro d hd
      rw [applyOp, Registry.deregister_disk] at hd
      simp only [List.mem_filter] at hd
      exact hb d hd.1
  | configure n =>
    dsimp only [applyOp]
    split
    · exact ⟨hp, hb⟩
    · split
      · exact ⟨hp, hb⟩
      · exact ⟨hp, hb⟩
      · exact ⟨hp, hb⟩

theorem diskInv_applyOps (ops : List Op) :
    ∀ s, DiskInv s → DiskInv (applyOps s ops) := by
  induction ops with
  | nil => intro s h; exact h
  | cons op rest ih =>
    intro s h
    simp only [applyOps, List.foldl_cons] at *
    exact ih (applyOp s op) (diskInv_applyOp s op h)

theorem reachable_diskInv (s : Registry) (h : Reachable s) : DiskInv s := by
  obtain ⟨ops, rfl⟩ := h
  exact diskInv_applyOps ops _ diskInv_init

theorem handle_msg_register_user (s : Registry) (addr : List Nat) (txn : Nat)
    (pb : List Nat) :
    handle_msg s addr MsgType.REGISTER_USER_REQ txn pb =
      match dec_register_user_req ⟨pb, 0⟩ with
      | .error e => .reply MsgType.ERROR_RESP txn (.errorResp .INVALID_ARGUMENT e) s
      | .ok ((name, listen_port), _) =>
        if name = [] ∨ listen_port = 0 then
          .reply MsgType.ERROR_RESP txn
            (.errorResp .INVALID_ARGUMENT "missing name/port") s
        else
          .reply MsgType.REGISTER_USER_RESP txn
            (.registerUserResp .OK (s.register_user name addr listen_port).1)
            (s.register_user name addr listen_port).2 := by
  rw [handle_msg, if_pos rfl]

theorem handle_msg_deregister_user (s : Registry) (addr : List Nat) (txn : Nat)
    (pb : List Nat) :
    handle_msg s addr MsgType.DEREGISTER_USER_REQ txn pb =
      match dec_deregister_user_req ⟨pb, 0⟩ with
      | .error _ => .abort s
      | .ok (uid, _) =>
        .reply MsgType.DEREGISTER_USER_RESP txn
          (.simpleStatus (if (s.deregister_user uid).1 then .OK else .NOT_REGISTERED))
          (s.deregister_user uid).2 := by
  rw [handle_msg, if_neg (by decide), if_pos rfl]

theorem handle_msg_register_disk (s : Registry) (addr : List Nat) (txn : Nat)
    (pb : List Nat) :
    handle_msg s addr MsgType.REGISTER_DISK_REQ txn pb =
      match dec_register_disk_req ⟨pb, 0⟩ with
      | .error e => .reply MsgType.ERROR_RESP txn (.errorResp .INVALID_ARGUMENT e) s
      | .ok ((name, listen_port, capacity, zone), _) =>
        if name = [] ∨ listen_port = 0 ∨ capacity = 0 then
          .reply MsgType.ERROR_RESP txn (.errorResp .INVALID_ARGUMENT "bad disk args") s
        else
          .reply MsgType.REGISTER_DISK_RESP txn
            (.registerDiskResp .OK (s.register_disk name addr listen_port capacity zone).1)
            (s.register_disk name addr listen_port capacity zone).2 := by
  rw [handle_msg, if_neg (by decide), if_neg (by decide), if_pos rfl]

theorem handle_msg_deregister_disk (s : Registry) (addr : List Nat) (txn : Nat)
    (pb : List Nat) :
    handle_msg s addr MsgType.DEREGISTER_DISK_REQ txn pb =
      match dec_deregister_disk_req ⟨pb, 0⟩ with
      | .error _ => .abort s
      | .ok (did, _) =>
        .reply MsgType.DEREGISTER_DISK_RESP txn
          (.simpleStatus (if (s.deregister_disk did).1 then .OK else .NOT_REGISTERED))
          (s.deregister_disk did).2 := by
  rw [handle_msg, if_neg (by decide), if_neg (by decide), if_neg (by decide), if_pos rfl]

theorem handle_msg_configure (s : Registry) (addr : List Nat) (txn : Nat)
    (pb : List Nat) :
    handle_msg s addr MsgType.CONFIGURE_DSS_REQ txn pb =
      match dec_configure_req ⟨pb, 0⟩ with
      | .error _ => .abort s
      | .ok ((n, _, _), _) =>
        if n = 0 then
          .reply MsgType.CONFIGURE_DSS_RESP txn (.configureResp .INVALID_ARGUMENT 0 []) s
        else
          match s.allocate_disks n with
          | none =>
            .reply MsgType.CONFIGURE_DSS_RESP txn
              (.configureResp .INSUFFICIENT_RESOURCES 0 []) s
          | some [] =>
            .reply MsgType.CONFIGURE_DSS_RESP txn
              (.configureResp .INSUFFICIENT_RESOURCES 0 []) s
          | some (d :: ds) =>
            .reply MsgType.CONFIGURE_DSS_RESP txn
              (.configureResp .OK s.next_dss_id (d :: ds))
              { s with next_dss_id := s.next_dss_id + 1 } := by
  rw [handle_msg, if_neg (by decide), if_neg (by decide), if_neg (by decide),
    if_neg (by decide), if_pos rfl]

/-- C1: in every reachable registry state the stored disk ids are strictly
increasing in registration order, so the insertion-order list of disk ids is
exactly the registered ids in ascending order; `allocate_disks n` with
`1 ≤ n ≤ M` returns the first `n` of them, with `n > M` it returns the
failure signal `none`, and the dispatcher surfaces that failure as a
CONFIGURE_DSS_RESP carrying INSUFFICIENT_RESOURCES. -/
theorem C1_allocate_first_n_ascending (s : Registry) (hs : Reachable s) :
    ((s.disks.map (fun d => d.disk_id)).Pairwise (· < ·)) ∧
    (∀ n, 1 ≤ n → n ≤ s.disks.length →
      s.allocate_disks n = some ((s.disks.map (fun d => d.disk_id)).take n)) ∧
    (∀ n, s.disks.length < n → s.allocate_disks n = none) ∧
    (∀ addr txn pb n pol con c2,
      dec_configure_req ⟨pb, 0⟩ = .ok ((n, pol, con), c2) →
      1 ≤ n → s.disks.length < n →
      handle_msg s addr MsgType.CONFIGURE_DSS_REQ txn pb =
        .reply MsgType.CONFIGURE_DSS_RESP txn
          (.configureResp .INSUFFICIENT_RESOURCES 0 []) s) := by
  obtain ⟨hp, _⟩ := reachable_diskInv s hs
  have hmaplen : (s.disks.map (fun d => d.disk_id)).length = s.disks.length :=
    List.length_map _ _
  have hnone : ∀ n, s.disks.length < n → s.allocate_disks n = none := by
    intro n hn
    rw [allocate_disks_eq, if_pos (by omega)]
  refine ⟨List.pairwise_map.mpr hp, ?_, hnone, ?_⟩
  · intro n _ hn
    rw [allocate_disks_eq, if_neg (by omega)]
  · intro addr txn pb n pol con c2 hdec hn1 hlen
    rw [handle_msg_configure, hdec]
    dsimp only
    rw [if_neg (by omega), hnone n hlen]

/-- Witness for C1 at a concrete reachable state: two disks registered (ids
1 and 2); allocating 1 yields `[1]`, allocating 3 fails. -/
theorem C1_witness :
    (applyOps Registry.init
        [Op.regDisk [100] [10] 9000 1000 [122],
         Op.regDisk [101] [10] 9001 1000 [122]]).allocate_disks 1 = some [1] ∧
    (applyOps Registry.init
        [Op.regDisk [100] [10] 9000 1000 [122],
         Op.regDisk [101] [10] 9001 1000 [122]]).allocate_disks 3 = none := by
  have h := C1_allocate_first_n_ascending
    (applyOps Registry.init
      [Op.regDisk [100] [10] 9000 1000 [122],
       Op.regDisk [101] [10] 9001 1000 [122]])
    ⟨[Op.regDisk [100] [10] 9000 1000 [122],
      Op.regDisk [101] [10] 9001 1000 [122]], rfl⟩
  refine ⟨?_, h.2.2.1 3 (by decide)⟩
  rw [h.2.1 1 (by decide) (by decide)]
  decide

/-- Number of user registrations in an operation sequence. -/
def countRegUser : List Op → Nat
  | [] => 0
  | .regUser _ _ _ :: rest => countRegUser rest + 1
  | _ :: rest => countRegUser rest

/-- Number of disk registrations in an operation sequence. -/
def countRegDisk : List Op → Nat
  | [] => 0
  | .regDisk _ _ _ _ _ :: rest => countRegDisk rest + 1
  | _ :: rest => countRegDisk rest

/-- The ids returned by `register_user` across an operation sequence run
from state `s`, in call order. -/
def userIdsReturned (s : Registry) : List Op → List Nat
  | [] => []
  | .regUser nm a p :: rest =>
    (s.register_user nm a p).1 :: userIdsReturned (s.register_user nm a p).2 rest
  | op :: rest => userIdsReturned (applyOp s op) rest

/-- The ids returned by `register_disk` across an operation sequence run
from state `s`, in call order. -/
def diskIdsReturned (s : Registry) : List Op → List Nat
  | [] => []
  | .regDisk nm a p cap z :: rest =>
    (s.register_disk nm a p cap z).1 ::
      diskIdsReturned (s.register_disk nm a p cap z).2 rest
  | op :: rest => diskIdsReturned (applyOp s op) rest

theorem applyOp_configure_frame (s : Registry) (n : Nat) :
    (applyOp s (.configure n)).next_user_id = s.next_user_id ∧
    (applyOp s (.configure n)).next_disk_id = s.next_disk_id ∧
    (applyOp s (.configure n)).users = s.users ∧
    (applyOp s (.configure n)).disks = s.disks ∧
    s.next_dss_id ≤ (applyOp s (.configure n)).next_dss_id := by
  dsimp only [applyOp]
  split
  · exact ⟨rfl, rfl, rfl, rfl, le_refl _⟩
  · split
    · exact ⟨rfl, rfl, rfl, rfl, le_refl _⟩
    · exact ⟨rfl, rfl, rfl, rfl, le_refl _⟩
    · exact ⟨rfl, rfl, rfl, rfl, by simp⟩

theorem userIdsReturned_eq_range' (ops : List Op) :
    ∀ s, userIdsReturned s ops = List.range' s.next_user_id (countRegUser ops) := by
  induction ops with
  | nil => intro s; simp [userIdsReturned, countRegUser]
  | cons op rest ih =>
    intro s
    cases op with
    | regUser nm a p =>
      simp only [userIdsReturned, countRegUser, List.range'_succ]
      rw [ih]
      simp [Registry.register_user]
    | deregUser uid =>
      simp only [userIdsReturned, countRegUser]
      rw [ih]
      rfl
    | regDisk nm a p cap z =>
      simp only [userIdsReturned, countRegUser]
      rw [ih]
      rfl
    | deregDisk did =>
      simp only [userIdsReturned, countRegUser]
      rw [ih]
      rfl
    | configure n =>
      simp only [userIdsReturned, countRegUser]
      rw [ih, (applyOp_configure_frame s n).1]

theorem diskIdsReturned_eq_range' (ops : List Op) :
    ∀ s, diskIdsReturned s ops = List.range' s.next_disk_id (countRegDisk ops) := by
  induction ops with
  | nil => intro s; simp [diskIdsReturned, countRegDisk]
  | cons op rest ih =>
    intro s
    cases op with
    | regDisk nm a p cap z =>
      simp only [diskIdsReturned, countRegDisk, List.range'_succ]
      rw [ih]
      simp [Registry.register_disk]
    | deregUser uid =>
      simp only [diskIdsReturned, countRegDisk]
      rw [ih]
      rfl
    | regUser nm a p =>
      simp only [diskIdsReturned, countRegDisk]
      rw [ih]
      rfl
    | deregDisk did =>
      simp only [diskIdsReturned, countRegDisk]
      rw [ih]
      rfl
    | configure n =>
      simp only [diskIdsReturned, countRegDisk]
      rw [ih, (applyOp_configure_frame s n).2.1]

theorem applyOp_counters_mono (s : Registry) (op : Op) :
    s.next_user_id ≤ (applyOp s op).next_user_id ∧
    s.next_disk_id ≤ (applyOp s op).next_disk_id ∧
    s.next_dss_id ≤ (applyOp s op).next_dss_id := by
  cases op with
  | regUser nm a p => exact ⟨by simp [applyOp, Registry.register_user], le_refl _, le_refl _⟩
  | deregUser uid => exact ⟨le_refl _, le_refl _, le_refl _⟩
  | regDisk nm a p cap z =>
    exact ⟨le_refl _, by simp [applyOp, Registry.register_disk], le_refl _⟩
  | deregDisk did => exact ⟨le_refl _, le_refl _, le_refl _⟩
  | configure n =>
    obtain ⟨h1, h2, _, _, h5⟩ := applyOp_configure_frame s n
    exact ⟨le_of_eq h1.symm, le_of_eq h2.symm, h5⟩

theorem applyOps_counters_mono (ops : List Op) :
    ∀ s : Registry,
      s.next_user_id ≤ (applyOps s ops).next_user_id ∧
      s.next_disk_id ≤ (applyOps s ops).next_disk_id ∧
      s.next_dss_id ≤ (applyOps s ops).next_dss_id := by
  induction ops with
  | nil => intro s; exact ⟨le_refl _, le_refl _, le_refl _⟩
  | cons op rest ih =>
    intro s
    obtain ⟨h1, h2, h3⟩ := applyOp_counters_mono s op
    obtain ⟨g1, g2, g3⟩ := ih (applyOp s op)
    simp only [applyOps, List.foldl_cons] at *
    exact ⟨le_trans h1 g1, le_trans h2 g2, le_trans h3 g3⟩

/-- C2: over any operation sequence from the initial state, the ids handed
out by `register_user` are exactly `1, 2, 3, …` in call order (and likewise
for `register_disk`): strictly increasing from 1, never repeated — so a
deregistered id is never returned again — and the three id counters never
decrease across any operation sequence. -/
theorem C2_ids_strictly_increasing_no_reuse (ops : List Op) :
    userIdsReturned Registry.init ops = List.range' 1 (countRegUser ops) ∧
    diskIdsReturned Registry.init ops = List.range' 1 (countRegDisk ops) ∧
    (userIdsReturned Registry.init ops).Pairwise (· < ·) ∧
    (diskIdsReturned Registry.init ops).Pairwise (· < ·) ∧
    (userIdsReturned Registry.init ops).Nodup ∧
    (diskIdsReturned Registry.init ops).Nodup ∧
    ∀ s : Registry,
      s.next_user_id ≤ (applyOps s ops).next_user_id ∧
      s.next_disk_id ≤ (applyOps s ops).next_disk_id ∧
      s.next_dss_id ≤ (applyOps s ops).next_dss_id := by
  have hu := userIdsReturned_eq_range' ops Registry.init
  have hd := diskIdsReturned_eq_range' ops Registry.init
  refine ⟨hu, hd, ?_, ?_, ?_, ?_, applyOps_counters_mono ops⟩
  · rw [hu]; exact List.pairwise_lt_range' 1 _
  · rw [hd]; exact List.pairwise_lt_range' 1 _
  · rw [hu]; exact List.nodup_range' 1 _
  · rw [hd]; exact List.nodup_range' 1 _

theorem rawBytes_spec (pre rest : List Nat) (n : Nat) (hn : n ≤ rest.length) :
    Cursor.rawBytes n ⟨pre ++ rest, pre.length⟩ =
      .ok (rest.take n, ⟨pre ++ rest, pre.length + n⟩) := by
  rw [Cursor.rawBytes, Cursor.need]
  simp only [List.length_append]
  rw [if_neg (by omega)]
  simp only [Except.bind, List.drop_left]

theorem readBE_spec (w x : Nat) (hx : x < 256 ^ w) (pre suf : List Nat) :
    Cursor.readBE w ⟨pre ++ (beBytes w x ++ suf), pre.length⟩ =
      .ok (x, ⟨pre ++ (beBytes w x ++ suf), pre.length + w⟩) := by
  rw [Cursor.readBE, rawBytes_spec pre (beBytes w x ++ suf) w
    (by simp [length_beBytes])]
  simp only [Except.bind]
  rw [List.take_left' (length_beBytes w x), beVal_beBytes w x hx]

theorem pack_str_ok (s : List Nat) (h : s.length ≤ 65535) :
    pack_str s = .ok (beBytes 2 s.length ++ s) := by
  rw [pack_str, if_neg (by omega), pack_u16, if_pos (by norm_num; omega)]
  rfl

theorem str_spec (pre suf s : List Nat) (h : s.length ≤ 65535) :
    Cursor.str ⟨pre ++ (beBytes 2 s.length ++ (s ++ suf)), pre.length⟩ =
      .ok (s, ⟨pre ++ (beBytes 2 s.length ++ (s ++ suf)),
        pre.length + 2 + s.length⟩) := by
  rw [Cursor.str, Cursor.u16,
    readBE_spec 2 s.length (by norm_num; omega) pre (s ++ suf)]
  simp only [Except.bind]
  have e1 : pre ++ (beBytes 2 s.length ++ (s ++ suf)) =
      (pre ++ beBytes 2 s.length) ++ (s ++ suf) := by
    simp [List.append_assoc]
  have e2 : pre.length + 2 = (pre ++ beBytes 2 s.length).length := by
    simp [length_beBytes]
  rw [e1, e2, rawBytes_spec _ _ _ (by simp), List.take_left]

theorem packList_pack_u32 (xs : List Nat) (h : ∀ v ∈ xs, v < 2 ^ 32) :
    packList pack_u32 xs = .ok ((xs.map (beBytes 4)).flatten) := by
  induction xs with
  | nil => rfl
  | cons v vs ih =>
    have hv : v < 2 ^ 32 := h v (by simp)
    rw [packList, pack_u32, if_pos hv]
    simp only [Except.bind]
    rw [ih (fun x hx => h x (by simp [hx]))]
    simp [Except.bind]

theorem flatten_map_beBytes_length (xs : List Nat) :
    ((xs.map (beBytes 4)).flatten).length = 4 * xs.length := by
  induction xs with
  | nil => simp
  | cons v vs ih => simp [ih, length_beBytes]; ring

theorem readU32s_spec (xs : List Nat) (h : ∀ v ∈ xs, v < 2 ^ 32) :
    ∀ pre suf : List Nat,
      Cursor.readU32s xs.length ⟨pre ++ ((xs.map (beBytes 4)).flatten ++ suf), pre.length⟩ =
        .ok (xs, ⟨pre ++ ((xs.map (beBytes 4)).flatten ++ suf),
          pre.length + 4 * xs.length⟩) := by
  induction xs with
  | nil =>
    intro pre suf
    simp [Cursor.readU32s]
  | cons v vs ih =>
    intro pre suf
    have hv : v < 256 ^ 4 := by
      have := h v (by simp)
      norm_num at this ⊢
      omega
    have e1 : pre ++ (((v :: vs).map (beBytes 4)).flatten ++ suf) =
        pre ++ (beBytes 4 v ++ ((vs.map (beBytes 4)).flatten ++ suf)) := by
      simp [List.append_assoc]
    rw [List.length_cons, Cursor.readU32s, e1, Cursor.u32]
    dsimp only
    rw [readBE_spec 4 v hv pre _]
    simp only [Except.bind]
    have e2 : pre ++ (beBytes 4 v ++ ((vs.map (beBytes 4)).flatten ++ suf)) =
        (pre ++ beBytes 4 v) ++ ((vs.map (beBytes 4)).flatten ++ suf) := by
      simp [List.append_assoc]
    have e3 : pre.length + 4 = (pre ++ beBytes 4 v).length := by
      simp [length_beBytes]
    rw [e2, e3, ih (fun x hx => h x (by simp [hx]))]
    simp only [Except.bind, Except.ok.injEq, Prod.mk.injEq, Cursor.mk.injEq]
    refine ⟨trivial, trivial, ?_⟩
    simp only [List.length_append, length_beBytes]
    ring

/-- C3: the codec round-trips.  Decoding `pack_str s` with `Cursor.str`
returns `s` and consumes exactly the encoded bytes, for every string of
UTF-8 length at most 65535; decoding `pack_u32_list xs` with
`Cursor.u32_list` returns `xs` for every list of at most 65535 u32 values;
and `decode (encode x) = x` for the fixed-width u8/u16/u32/u64 codecs. -/
theorem C3_codec_roundtrip :
    (∀ s : List Nat, s.length ≤ 65535 →
      ∃ out, pack_str s = .ok out ∧
        Cursor.str ⟨out, 0⟩ = .ok (s, ⟨out, out.length⟩)) ∧
    (∀ xs : List Nat, xs.length ≤ 65535 → (∀ v ∈ xs, v < 2 ^ 32) →
      ∃ out, pack_u32_list xs = .ok out ∧
        Cursor.u32_list ⟨out, 0⟩ = .ok (xs, ⟨out, out.length⟩)) ∧
    (∀ x, x < 2 ^ 8 → ∃ out, pack_u8 x = .ok out ∧
      Cursor.u8 ⟨out, 0⟩ = .ok (x, ⟨out, out.length⟩)) ∧
    (∀ x, x < 2 ^ 16 → ∃ out, pack_u16 x = .ok out ∧
      Cursor.u16 ⟨out, 0⟩ = .ok (x, ⟨out, out.length⟩)) ∧
    (∀ x, x < 2 ^ 32 → ∃ out, pack_u32 x = .ok out ∧
      Cursor.u32 ⟨out, 0⟩ = .ok (x, ⟨out, out.length⟩)) ∧
    (∀ x, x < 2 ^ 64 → ∃ out, pack_u64 x = .ok out ∧
      Cursor.u64 ⟨out, 0⟩ = .ok (x, ⟨out, out.length⟩)) := by
  have fixed : ∀ w x, x < 256 ^ w →
      Cursor.readBE w ⟨beBytes w x, 0⟩ = .ok (x, ⟨beBytes w x, (beBytes w x).length⟩) := by
    intro w x hx
    have h := readBE_spec w x hx [] []
    simp only [List.nil_append, List.append_nil, List.length_nil, Nat.zero_add] at h
    rw [length_beBytes]
    exact h
  refine ⟨?_, ?_, ?_, ?_, ?_, ?_⟩
  · intro s hs
    refine ⟨beBytes 2 s.length ++ s, pack_str_ok s hs, ?_⟩
    have h := str_spec [] [] s hs
    simp only [List.nil_append, List.append_nil, List.length_nil, Nat.zero_add] at h
    have hlen : (beBytes 2 s.length ++ s).length = 2 + s.length := by
      simp [length_beBytes]
    rw [hlen]
    exact h
  · intro xs hxl hvals
    refine ⟨beBytes 2 xs.length ++ (xs.map (beBytes 4)).flatten, ?_, ?_⟩
    · rw [pack_u32_list, if_neg (by omega), pack_u16, if_pos (by norm_num; omega)]
      simp only [Except.bind]
      rw [packList_pack_u32 xs hvals]
    · have h1 := readBE_spec 2 xs.length (by norm_num; omega) []
        ((xs.map (beBytes 4)).flatten)
      simp only [List.nil_append, List.length_nil, Nat.zero_add] at h1
      have h2 := readU32s_spec xs hvals (beBytes 2 xs.length) []
      simp only [List.append_nil, length_beBytes] at h2
      have hlen : (beBytes 2 xs.length ++ (xs.map (beBytes 4)).flatten).length =
          2 + 4 * xs.length := by
        rw [List.length_append, length_beBytes, flatten_map_beBytes_length]
      rw [Cursor.u32_list, Cursor.u16]
      rw [hlen, h1]
      simp only [Except.bind]
      exact h2
  · intro x hx
    refine ⟨beBytes 1 x, ?_, ?_⟩
    · rw [pack_u8, if_pos hx]
    · exact fixed 1 x (by norm_num at hx ⊢; omega)
  · intro x hx
    refine ⟨beBytes 2 x, ?_, ?_⟩
    · rw [pack_u16, if_pos hx]
    · exact fixed 2 x (by norm_num at hx ⊢; omega)
  · intro x hx
    refine ⟨beBytes 4 x, ?_, ?_⟩
    · rw [pack_u32, if_pos hx]
    · exact fixed 4 x (by norm_num at hx ⊢; omega)
  · intro x hx
    refine ⟨beBytes 8 x, ?_, ?_⟩
    · rw [pack_u64, if_pos hx]
    · exact fixed 8 x (by norm_num at hx ⊢; omega)

/-- Witness for C3 at concrete values: the string `"hi"` ([104, 105]) and
the list `[7]` round-trip, consuming the whole encoding. -/
theorem C3_witness :
    Cursor.str ⟨[0, 2, 104, 105], 0⟩ =
      .ok ([104, 105], ⟨[0, 2, 104, 105], 4⟩) ∧
    Cursor.u32_list ⟨[0, 1, 0, 0, 0, 7], 0⟩ =
      .ok ([7], ⟨[0, 1, 0, 0, 0, 7], 6⟩) := by
  constructor
  · obtain ⟨out, h1, h2⟩ := C3_codec_roundtrip.1 [104, 105] (by norm_num)
    have he : pack_str [104, 105] = .ok [0, 2, 104, 105] := rfl
    rw [he] at h1
    injection h1 with h1
    rw [← h1] at h2
    simpa using h2
  · obtain ⟨out, h1, h2⟩ :=
      C3_codec_roundtrip.2.1 [7] (by norm_num) (by norm_num)
    have he : pack_u32_list [7] = .ok [0, 1, 0, 0, 0, 7] := rfl
    rw [he] at h1
    injection h1 with h1
    rw [← h1] at h2
    simpa using h2

/-- C4: every CONFIGURE_DSS_REQ whose payload decodes gets a
CONFIGURE_DSS_RESP with the same transaction id; `n = 0` yields
INVALID_ARGUMENT with dssId 0 and an empty list; `n > 0` with fewer than `n`
registered disks yields INSUFFICIENT_RESOURCES with dssId 0 and an empty
list; `n > 0` with at least `n` registered disks yields OK, the freshly
minted dss id, and the `n` allocated disk ids — a nonempty list, so a
successful allocation is never misreported as INSUFFICIENT_RESOURCES. -/
theorem C4_configure_response (s : Registry) (addr : List Nat) (txn : Nat)
    (pb : List Nat) (n : Nat) (pol con : List Nat) (c2 : Cursor)
    (hdec : dec_configure_req ⟨pb, 0⟩ = .ok ((n, pol, con), c2)) :
    ∃ st dss ids s2,
      handle_msg s addr MsgType.CONFIGURE_DSS_REQ txn pb =
        .reply MsgType.CONFIGURE_DSS_RESP txn (.configureResp st dss ids) s2 ∧
      (n = 0 → st = .INVALID_ARGUMENT ∧ dss = 0 ∧ ids = [] ∧ s2 = s) ∧
      (0 < n → s.disks.length < n →
        st = .INSUFFICIENT_RESOURCES ∧ dss = 0 ∧ ids = [] ∧ s2 = s) ∧
      (0 < n → n ≤ s.disks.length →
        st = .OK ∧ dss = s.next_dss_id ∧
        ids = (s.disks.map (fun d => d.disk_id)).take n ∧ ids ≠ [] ∧
        s2 = { s with next_dss_id := s.next_dss_id + 1 }) := by
  rw [handle_msg_configure, hdec]
  dsimp only
  by_cases h0 : n = 0
  · subst h0
    rw [if_pos rfl]
    exact ⟨_, _, _, _, rfl, fun _ => ⟨rfl, rfl, rfl, rfl⟩,
      fun h => absurd h (by omega), fun h => absurd h (by omega)⟩
  · rw [if_neg h0]
    by_cases hlt : s.disks.length < n
    · have hnone : s.allocate_disks n = none := by
        rw [allocate_disks_eq, if_pos (by rw [List.length_map]; omega)]
      rw [hnone]
      exact ⟨_, _, _, _, rfl, fun h => absurd h h0,
        fun _ _ => ⟨rfl, rfl, rfl, rfl⟩, fun _ hle => absurd hle (by omega)⟩
    · have halloc : s.allocate_disks n =
          some ((s.disks.map (fun d => d.disk_id)).take n) := by
        rw [allocate_disks_eq, if_neg (by rw [List.length_map]; omega)]
      have hne : (s.disks.map (fun d => d.disk_id)).take n ≠ [] := by
        intro hnil
        have := congrArg List.length hnil
        simp only [List.length_take, List.length_map, List.length_nil] at this
        omega
      rw [halloc]
      cases hc : (s.disks.map (fun d => d.disk_id)).take n with
      | nil => exact absurd hc hne
      | cons d ds =>
        exact ⟨_, _, _, _, rfl, fun h => absurd h h0,
          fun _ h2 => absurd h2 hlt,
          fun _ _ => ⟨rfl, rfl, rfl, by simp, rfl⟩⟩

/-- Witness for C4: a CONFIGURE_DSS_REQ with n = 1 against the empty
registry is answered with INSUFFICIENT_RESOURCES, dssId 0, empty list. -/
theorem C4_witness :
    handle_msg Registry.init [10] MsgType.CONFIGURE_DSS_REQ 5 [0, 1, 0, 0, 0, 0] =
      .reply MsgType.CONFIGURE_DSS_RESP 5
        (.configureResp .INSUFFICIENT_RESOURCES 0 []) Registry.init := by
  obtain ⟨st, dss, ids, s2, hmain, _, h3, _⟩ :=
    C4_configure_response Registry.init [10] 5 [0, 1, 0, 0, 0, 0] 1 [] []
      ⟨[0, 1, 0, 0, 0, 0], 6⟩ rfl
  obtain ⟨hst, hdss, hids, hs2⟩ := h3 (by decide) (by decide)
  rw [hmain, hst, hdss, hids, hs2]

/-- C9: handling a CONFIGURE_DSS_REQ never mutates users, disks or the
user/disk counters; `next_dss_id` is incremented by exactly 1 on the
successful path and unchanged on every failure path (so on failure the
whole registry is unchanged); since the disks are untouched, a later
allocation returns the same disk ids again. -/
theorem C9_configure_frame (s : Registry) (addr : List Nat) (txn : Nat)
    (pb : List Nat) :
    (∀ rmt rtxn resp s2,
      handle_msg s addr MsgType.CONFIGURE_DSS_REQ txn pb = .reply rmt rtxn resp s2 →
      s2.users = s.users ∧ s2.disks = s.disks ∧
      s2.next_user_id = s.next_user_id ∧ s2.next_disk_id = s.next_disk_id ∧
      (∀ m, s2.allocate_disks m = s.allocate_disks m) ∧
      ((∃ dss ids, resp = .configureResp .OK dss ids) →
        s2.next_dss_id = s.next_dss_id + 1) ∧
      ((∀ dss ids, resp ≠ .configureResp .OK dss ids) → s2 = s)) ∧
    (∀ s2, handle_msg s addr MsgType.CONFIGURE_DSS_REQ txn pb = .abort s2 →
      s2 = s) := by
  rw [handle_msg_configure]
  cases hdec : dec_configure_req ⟨pb, 0⟩ with
  | error e =>
    constructor
    · intro rmt rtxn resp s2 h
      exact HandleResult.noConfusion h
    · intro s2 h
      injection h with h
      exact h.symm
  | ok p =>
    obtain ⟨⟨n, pol, con⟩, c⟩ := p
    dsimp only
    by_cases h0 : n = 0
    · subst h0
      rw [if_pos rfl]
      constructor
      · intro rmt rtxn resp s2 h
        injection h with h1 h2 h3 h4
        subst h4; subst h3
        refine ⟨rfl, rfl, rfl, rfl, fun m => rfl, ?_, fun _ => rfl⟩
        rintro ⟨dss, ids, heq⟩
        simp only [Resp.configureResp.injEq] at heq
        exact absurd heq.1 (by intro hst; exact Status.noConfusion hst)
      · intro s2 h
        exact HandleResult.noConfusion h
    · rw [if_neg h0]
      cases halloc : s.allocate_disks n with
      | none =>
        constructor
        · intro rmt rtxn resp s2 h
          injection h with h1 h2 h3 h4
          subst h4; subst h3
          refine ⟨rfl, rfl, rfl, rfl, fun m => rfl, ?_, fun _ => rfl⟩
          rintro ⟨dss, ids, heq⟩
          simp only [Resp.configureResp.injEq] at heq
          exact absurd heq.1 (by intro hst; exact Status.noConfusion hst)
        · intro s2 h
          exact HandleResult.noConfusion h
      | some ds =>
        cases ds with
        | nil =>
          constructor
          · intro rmt rtxn resp s2 h
            injection h with h1 h2 h3 h4
            subst h4; subst h3
            refine ⟨rfl, rfl, rfl, rfl, fun m => rfl, ?_, fun _ => rfl⟩
            rintro ⟨dss, ids, heq⟩
            simp only [Resp.configureResp.injEq] at heq
            exact absurd heq.1 (by intro hst; exact Status.noConfusion hst)
          · intro s2 h
            exact HandleResult.noConfusion h
        | cons d rest =>
          constructor
          · intro rmt rtxn resp s2 h
            injection h with h1 h2 h3 h4
            subst h4; subst h3
            refine ⟨rfl, rfl, rfl, rfl, fun m => rfl, fun _ => rfl, ?_⟩
            intro hne
            exact absurd rfl (hne s.next_dss_id (d :: rest))
          · intro s2 h
            exact HandleResult.noConfusion h

/-- Witness for C9 on the successful path: with one registered disk, a
configure request for one disk bumps only the DSS counter (from 1 to 2). -/
theorem C9_witness :
    (⟨1, 2, 2, [], [⟨1, [100], [10], 9000, 1000, [122], "READY"⟩]⟩ : Registry).next_dss_id =
      (⟨1, 2, 1, [], [⟨1, [100], [10], 9000, 1000, [122], "READY"⟩]⟩ : Registry).next_dss_id + 1 :=
  ((C9_configure_frame
      ⟨1, 2, 1, [], [⟨1, [100], [10], 9000, 1000, [122], "READY"⟩]⟩
      [10] 5 [0, 1, 0, 0, 0, 0]).1
    MsgType.CONFIGURE_DSS_RESP 5 (.configureResp .OK 1 [1])
    ⟨1, 2, 2, [], [⟨1, [100], [10], 9000, 1000, [122], "READY"⟩]⟩
    (by decide)).2.2.2.2.2.1 ⟨1, [1], rfl⟩

/-- C6: `pack_str` succeeds exactly on strings whose UTF-8 encoding is at
most 65535 bytes and fails with the string-too-long error beyond that;
`pack_u32_list` (on in-range u32 elements) succeeds exactly up to 65535
elements and fails with the list-too-long error beyond that. -/
theorem C6_encoder_limits :
    (∀ s : List Nat, s.length ≤ 65535 →
      pack_str s = .ok (beBytes 2 s.length ++ s)) ∧
    (∀ s : List Nat, 65535 < s.length →
      pack_str s = .error "string too long") ∧
    (∀ xs : List Nat, (∀ v ∈ xs, v < 2 ^ 32) → xs.length ≤ 65535 →
      ∃ out, pack_u32_list xs = .ok out) ∧
    (∀ xs : List Nat, 65535 < xs.length →
      pack_u32_list xs = .error "list too long") := by
  refine ⟨fun s h => pack_str_ok s h, ?_, ?_, ?_⟩
  · intro s h
    rw [pack_str, if_pos (by omega)]
  · intro xs hv hl
    refine ⟨beBytes 2 xs.length ++ (xs.map (beBytes 4)).flatten, ?_⟩
    rw [pack_u32_list, if_neg (by omega), pack_u16, if_pos (by norm_num; omega)]
    simp only [Except.bind]
    rw [packList_pack_u32 xs hv]
  · intro xs h
    rw [pack_u32_list, if_pos (by omega)]

/-- Witness for C6: a 65536-byte string fails with the string-too-long
error; a 65536-element list fails with the list-too-long error. -/
theorem C6_witness :
    pack_str (List.replicate 65536 0) = .error "string too long" ∧
    pack_u32_list (List.replicate 65536 0) = .error "list too long" := by
  constructor
  · exact C6_encoder_limits.2.1 _ (by rw [List.length_replicate]; omega)
  · exact C6_encoder_limits.2.2.2 _ (by rw [List.length_replicate]; omega)

/-- C5: every cursor read first checks remaining bytes and fails with the
truncated-payload error instead of reading past the buffer end (shown here
for all six read operations at any offset with insufficient bytes), and for
each of the five request decoders, a payload that decodes successfully and
completely (final offset = payload length) fails with the truncated-payload
error once its last byte is removed. -/
theorem C5_truncation_safety :
    (∀ d : List Nat, ∀ o, d.length < o + 1 →
      Cursor.u8 ⟨d, o⟩ = .error "truncated payload") ∧
    (∀ d : List Nat, ∀ o, d.length < o + 2 →
      Cursor.u16 ⟨d, o⟩ = .error "truncated payload") ∧
    (∀ d : List Nat, ∀ o, d.length < o + 4 →
      Cursor.u32 ⟨d, o⟩ = .error "truncated payload") ∧
    (∀ d : List Nat, ∀ o, d.length < o + 8 →
      Cursor.u64 ⟨d, o⟩ = .error "truncated payload") ∧
    (∀ d : List Nat, ∀ o, d.length < o + 2 →
      Cursor.str ⟨d, o⟩ = .error "truncated payload") ∧
    (∀ d : List Nat, ∀ o, d.length < o + 2 →
      Cursor.u32_list ⟨d, o⟩ = .error "truncated payload") ∧
    (∀ pb v d2 o2, dec_register_user_req ⟨pb, 0⟩ = .ok (v, ⟨d2, o2⟩) →
      o2 = pb.length → 0 < pb.length →
      dec_register_user_req ⟨pb.dropLast, 0⟩ = .error "truncated payload") ∧
    (∀ pb v d2 o2, dec_register_disk_req ⟨pb, 0⟩ = .ok (v, ⟨d2, o2⟩) →
      o2 = pb.length → 0 < pb.length →
      dec_register_disk_req ⟨pb.dropLast, 0⟩ = .error "truncated payload") ∧
    (∀ pb v d2 o2, dec_configure_req ⟨pb, 0⟩ = .ok (v, ⟨d2, o2⟩) →
      o2 = pb.length → 0 < pb.length →
      dec_configure_req ⟨pb.dropLast, 0⟩ = .error "truncated payload") ∧
    (∀ pb v d2 o2, dec_deregister_user_req ⟨pb, 0⟩ = .ok (v, ⟨d2, o2⟩) →
      o2 = pb.length → 0 < pb.length →
      dec_deregister_user_req ⟨pb.dropLast, 0⟩ = .error "truncated payload") ∧
    (∀ pb v d2 o2, dec_deregister_disk_req ⟨pb, 0⟩ = .ok (v, ⟨d2, o2⟩) →
      o2 = pb.length → 0 < pb.length →
      dec_deregister_disk_req ⟨pb.dropLast, 0⟩ = .error "truncated payload") := by
  have short : ∀ w, ∀ d : List Nat, ∀ o, d.length < o + w →
      Cursor.readBE w ⟨d, o⟩ = .error "truncated payload" := by
    intro w d o h
    rw [Cursor.readBE, Cursor.rawBytes, Cursor.need]
    dsimp only
    rw [if_pos (by omega)]
    rfl
  refine ⟨short 1, short 2, short 4, short 8, ?_, ?_, ?_, ?_, ?_, ?_, ?_⟩
  · intro d o h
    rw [Cursor.str, Cursor.u16, short 2 d o h]
    rfl
  · intro d o h
    rw [Cursor.u32_list, Cursor.u16, short 2 d o h]
    rfl
  · intro pb v d2 o2 h ho hlen
    obtain ⟨hd, _, herr, _⟩ := goodRead_dec_register_user_req pb 0 v d2 o2 h
    rw [List.dropLast_eq_take]
    exact herr (pb.length - 1) (by omega) (by omega) (by omega)
  · intro pb v d2 o2 h ho hlen
    obtain ⟨hd, _, herr, _⟩ := goodRead_dec_register_disk_req pb 0 v d2 o2 h
    rw [List.dropLast_eq_take]
    exact herr (pb.length - 1) (by omega) (by omega) (by omega)
  · intro pb v d2 o2 h ho hlen
    obtain ⟨hd, _, herr, _⟩ := goodRead_dec_configure_req pb 0 v d2 o2 h
    rw [List.dropLast_eq_take]
    exact herr (pb.length - 1) (by omega) (by omega) (by omega)
  · intro pb v d2 o2 h ho hlen
    obtain ⟨hd, _, herr, _⟩ := goodRead_dec_deregister_user_req pb 0 v d2 o2 h
    rw [List.dropLast_eq_take]
    exact herr (pb.length - 1) (by omega) (by omega) (by omega)
  · intro pb v d2 o2 h ho hlen
    obtain ⟨hd, _, herr, _⟩ := goodRead_dec_deregister_disk_req pb 0 v d2 o2 h
    rw [List.dropLast_eq_take]
    exact herr (pb.length - 1) (by omega) (by omega) (by omega)

/-- Witness for C5: the 4-byte DEREGISTER_USER payload for id 7 decodes
completely, and with its last byte removed decoding fails with the
truncated-payload error; an empty buffer fails an u8 read the same way. -/
theorem C5_witness :
    dec_deregister_user_req ⟨([0, 0, 0, 7] : List Nat).dropLast, 0⟩ =
      .error "truncated payload" ∧
    Cursor.u8 ⟨[], 0⟩ = .error "truncated payload" := by
  constructor
  · exact C5_truncation_safety.2.2.2.2.2.2.2.2.2.1 [0, 0, 0, 7] 7 [0, 0, 0, 7] 4
      rfl rfl (by decide)
  · exact C5_truncation_safety.1 [] 0 (by simp)

/-- C7: for REGISTER_USER_REQ and REGISTER_DISK_REQ, a payload that fails
to decode or fails validation (empty name, zero listen port, or zero
capacity for disks) is answered with ERROR_RESP / INVALID_ARGUMENT and a
message, with the registry unchanged and the connection loop continuing
(a `reply`, not an `abort`); otherwise the entity is registered and the
typed response carries status OK and the newly assigned id. -/
theorem C7_register_validation (s : Registry) (addr : List Nat) (txn : Nat)
    (pb : List Nat) :
    (∀ e, dec_register_user_req ⟨pb, 0⟩ = .error e →
      handle_msg s addr MsgType.REGISTER_USER_REQ txn pb =
        .reply MsgType.ERROR_RESP txn (.errorResp .INVALID_ARGUMENT e) s) ∧
    (∀ name port c2, dec_register_user_req ⟨pb, 0⟩ = .ok ((name, port), c2) →
      name = [] ∨ port = 0 →
      handle_msg s addr MsgType.REGISTER_USER_REQ txn pb =
        .reply MsgType.ERROR_RESP txn
          (.errorResp .INVALID_ARGUMENT "missing name/port") s) ∧
    (∀ name port c2, dec_register_user_req ⟨pb, 0⟩ = .ok ((name, port), c2) →
      name ≠ [] → port ≠ 0 →
      handle_msg s addr MsgType.REGISTER_USER_REQ txn pb =
        .reply MsgType.REGISTER_USER_RESP txn
          (.registerUserResp .OK s.next_user_id)
          (s.register_user name addr port).2) ∧
    (∀ e, dec_register_disk_req ⟨pb, 0⟩ = .error e →
      handle_msg s addr MsgType.REGISTER_DISK_REQ txn pb =
        .reply MsgType.ERROR_RESP txn (.errorResp .INVALID_ARGUMENT e) s) ∧
    (∀ name port cap zone c2,
      dec_register_disk_req ⟨pb, 0⟩ = .ok ((name, port, cap, zone), c2) →
      name = [] ∨ port = 0 ∨ cap = 0 →
      handle_msg s addr MsgType.REGISTER_DISK_REQ txn pb =
        .reply MsgType.ERROR_RESP txn
          (.errorResp .INVALID_ARGUMENT "bad disk args") s) ∧
    (∀ name port cap zone c2,
      dec_register_disk_req ⟨pb, 0⟩ = .ok ((name, port, cap, zone), c2) →
      name ≠ [] → port ≠ 0 → cap ≠ 0 →
      handle_msg s addr MsgType.REGISTER_DISK_REQ txn pb =
        .reply MsgType.REGISTER_DISK_RESP txn
          (.registerDiskResp .OK s.next_disk_id)
          (s.register_disk name addr port cap zone).2) := by
  refine ⟨?_, ?_, ?_, ?_, ?_, ?_⟩
  · intro e hdec
    rw [handle_msg_register_user, hdec]
  · intro name port c2 hdec hbad
    rw [handle_msg_register_user, hdec]
    dsimp only
    rw [if_pos hbad]
  · intro name port c2 hdec hname hport
    rw [handle_msg_register_user, hdec]
    dsimp only
    rw [if_neg (by tauto)]
    rfl
  · intro e hdec
    rw [handle_msg_register_disk, hdec]
  · intro name port cap zone c2 hdec hbad
    rw [handle_msg_register_disk, hdec]
    dsimp only
    rw [if_pos hbad]
  · intro name port cap zone c2 hdec hname hport hcap
    rw [handle_msg_register_disk, hdec]
    dsimp only
    rw [if_neg (by tauto)]
    rfl

/-- Witness for C7: an empty REGISTER_USER_REQ payload fails to decode and
is answered with ERROR_RESP, state unchanged; a well-formed registration
(name "a", port 1) is answered with REGISTER_USER_RESP OK and user id 1. -/
theorem C7_witness :
    handle_msg Registry.init [10] MsgType.REGISTER_USER_REQ 1 [] =
      .reply MsgType.ERROR_RESP 1
        (.errorResp .INVALID_ARGUMENT "truncated payload") Registry.init ∧
    handle_msg Registry.init [10] MsgType.REGISTER_USER_REQ 2 [0, 1, 97, 0, 1] =
      .reply MsgType.REGISTER_USER_RESP 2 (.registerUserResp .OK 1)
        (Registry.init.register_user [97] [10] 1).2 := by
  constructor
  · exact (C7_register_validation Registry.init [10] 1 []).1 "truncated payload" rfl
  · exact (C7_register_validation Registry.init [10] 2 [0, 1, 97, 0, 1]).2.2.1
      [97] 1 ⟨[0, 1, 97, 0, 1], 5⟩ rfl (by decide) (by decide)

/-- C8: `deregister_user` returns true exactly when the id is currently
registered; removing is exactly filtering that id out of the collection;
when the id is absent the state is unchanged; and the dispatcher answers
DEREGISTER_USER_RESP with OK when present and NOT_REGISTERED when absent
(never ERROR_RESP).  The same holds for `deregister_disk` and
DEREGISTER_DISK_RESP. -/
theorem C8_deregister_semantics (s : Registry) (uid did : Nat) :
    ((s.deregister_user uid).1 = true ↔ ∃ u ∈ s.users, u.user_id = uid) ∧
    ((s.deregister_user uid).2.users =
      s.users.filter (fun u => u.user_id != uid)) ∧
    ((s.deregister_user uid).1 = false → (s.deregister_user uid).2 = s) ∧
    (∀ addr txn pb c2, dec_deregister_user_req ⟨pb, 0⟩ = .ok (uid, c2) →
      handle_msg s addr MsgType.DEREGISTER_USER_REQ txn pb =
        .reply MsgType.DEREGISTER_USER_RESP txn
          (.simpleStatus
            (if (s.deregister_user uid).1 then .OK else .NOT_REGISTERED))
          (s.deregister_user uid).2) ∧
    ((s.deregister_disk did).1 = true ↔ ∃ d ∈ s.disks, d.disk_id = did) ∧
    ((s.deregister_disk did).2.disks =
      s.disks.filter (fun d => d.disk_id != did)) ∧
    ((s.deregister_disk did).1 = false → (s.deregister_disk did).2 = s) ∧
    (∀ addr txn pb c2, dec_deregister_disk_req ⟨pb, 0⟩ = .ok (did, c2) →
      handle_msg s addr MsgType.DEREGISTER_DISK_REQ txn pb =
        .reply MsgType.DEREGISTER_DISK_RESP txn
          (.simpleStatus
            (if (s.deregister_disk did).1 then .OK else .NOT_REGISTERED))
          (s.deregister_disk did).2) := by
  refine ⟨?_, rfl, ?_, ?_, ?_, rfl, ?_, ?_⟩
  · simp [Registry.deregister_user, List.any_eq_true]
  · intro hfalse
    rw [Registry.deregister_user] at hfalse ⊢
    simp only [List.any_eq_false, beq_iff_eq] at hfalse
    have hfe : s.users.filter (fun u => u.user_id != uid) = s.users := by
      rw [List.filter_eq_self]
      intro u hu
      simp [hfalse u hu]
    simp only [hfe]
  · intro addr txn pb c2 hdec
    rw [handle_msg_deregister_user, hdec]
  · simp [Registry.deregister_disk, List.any_eq_true]
  · intro hfalse
    rw [Registry.deregister_disk] at hfalse ⊢
    simp only [List.any_eq_false, beq_iff_eq] at hfalse
    have hfe : s.disks.filter (fun d => d.disk_id != did) = s.disks := by
      rw [List.filter_eq_self]
      intro d hd
      simp [hfalse d hd]
    simp only [hfe]
  · intro addr txn pb c2 hdec
    rw [handle_msg_deregister_disk, hdec]

/-- Witness for C8: deregistering the never-registered user id 999 against
the fresh registry answers NOT_REGISTERED and leaves the registry as it
was. -/
theorem C8_witness :
    handle_msg Registry.init [10] MsgType.DEREGISTER_USER_REQ 7 [0, 0, 3, 231] =
      .reply MsgType.DEREGISTER_USER_RESP 7
        (.simpleStatus .NOT_REGISTERED) Registry.init := by
  have h := (C8_deregister_semantics Registry.init 999 0).2.2.2.1
    [10] 7 [0, 0, 3, 231] ⟨[0, 0, 3, 231], 4⟩ rfl
  rw [h]
  decide

/-- C10 (implicit): when the payload of a DEREGISTER_USER_REQ,
DEREGISTER_DISK_REQ or CONFIGURE_DSS_REQ fails to decode, the decoder's
exception is raised outside any local handler and is not among the types
caught by the connection loop, so no response is sent, the loop terminates
and the connection closes (modelled as `abort`, with `handle_loop`
producing no responses and the terminated flag); whereas the same decode
failure on REGISTER_USER_REQ / REGISTER_DISK_REQ yields an ERROR_RESP and
the loop continues with the remaining frames. -/
theorem C10_decode_failure_closes_connection (s : Registry) (addr : List Nat)
    (txn : Nat) (pb : List Nat) (rest : List (Nat × Nat × List Nat)) :
    (∀ e, dec_deregister_user_req ⟨pb, 0⟩ = .error e →
      handle_msg s addr MsgType.DEREGISTER_USER_REQ txn pb = .abort s ∧
      handle_loop addr s ((MsgType.DEREGISTER_USER_REQ, txn, pb) :: rest) =
        ([], s, true)) ∧
    (∀ e, dec_deregister_disk_req ⟨pb, 0⟩ = .error e →
      handle_msg s addr MsgType.DEREGISTER_DISK_REQ txn pb = .abort s ∧
      handle_loop addr s ((MsgType.DEREGISTER_DISK_REQ, txn, pb) :: rest) =
        ([], s, true)) ∧
    (∀ e, dec_configure_req ⟨pb, 0⟩ = .error e →
      handle_msg s addr MsgType.CONFIGURE_DSS_REQ txn pb = .abort s ∧
      handle_loop addr s ((MsgType.CONFIGURE_DSS_REQ, txn, pb) :: rest) =
        ([], s, true)) ∧
    (∀ e, dec_register_user_req ⟨pb, 0⟩ = .error e →
      handle_msg s addr MsgType.REGISTER_USER_REQ txn pb =
        .reply MsgType.ERROR_RESP txn (.errorResp .INVALID_ARGUMENT e) s ∧
      handle_loop addr s ((MsgType.REGISTER_USER_REQ, txn, pb) :: rest) =
        ((MsgType.ERROR_RESP, txn, .errorResp .INVALID_ARGUMENT e) ::
            (handle_loop addr s rest).1,
          (handle_loop addr s rest).2)) ∧
    (∀ e, dec_register_disk_req ⟨pb, 0⟩ = .error e →
      handle_msg s addr MsgType.REGISTER_DISK_REQ txn pb =
        .reply MsgType.ERROR_RESP txn (.errorResp .INVALID_ARGUMENT e) s ∧
      handle_loop addr s ((MsgType.REGISTER_DISK_REQ, txn, pb) :: rest) =
        ((MsgType.ERROR_RESP, txn, .errorResp .INVALID_ARGUMENT e) ::
            (handle_loop addr s rest).1,
          (handle_loop addr s rest).2)) := by
  refine ⟨?_, ?_, ?_, ?_, ?_⟩
  · intro e hdec
    have hm : handle_msg s addr MsgType.DEREGISTER_USER_REQ txn pb = .abort s := by
      rw [handle_msg_deregister_user, hdec]
    refine ⟨hm, ?_⟩
    rw [handle_loop, hm]
  · intro e hdec
    have hm : handle_msg s addr MsgType.DEREGISTER_DISK_REQ txn pb = .abort s := by
      rw [handle_msg_deregister_disk, hdec]
    refine ⟨hm, ?_⟩
    rw [handle_loop, hm]
  · intro e hdec
    have hm : handle_msg s addr MsgType.CONFIGURE_DSS_REQ txn pb = .abort s := by
      rw [handle_msg_configure, hdec]
    refine ⟨hm, ?_⟩
    rw [handle_loop, hm]
  · intro e hdec
    have hm : handle_msg s addr MsgType.REGISTER_USER_REQ txn pb =
        .reply MsgType.ERROR_RESP txn (.errorResp .INVALID_ARGUMENT e) s := by
      rw [handle_msg_register_user, hdec]
    refine ⟨hm, ?_⟩
    rw [handle_loop, hm]
  · intro e hdec
    have hm : handle_msg s addr MsgType.REGISTER_DISK_REQ txn pb =
        .reply MsgType.ERROR_RESP txn (.errorResp .INVALID_ARGUMENT e) s := by
      rw [handle_msg_register_disk, hdec]
    refine ⟨hm, ?_⟩
    rw [handle_loop, hm]

/-- Witness for C10: a 3-byte DEREGISTER_USER payload kills the connection
with no response, while an empty REGISTER_USER payload gets an ERROR_RESP
and the loop goes on. -/
theorem C10_witness :
    handle_loop [10] Registry.init
        [(MsgType.DEREGISTER_USER_REQ, 7, [0, 0, 3])] =
      ([], Registry.init, true) ∧
    handle_loop [10] Registry.init [(MsgType.REGISTER_USER_REQ, 8, [])] =
      ([(MsgType.ERROR_RESP, 8,
          .errorResp .INVALID_ARGUMENT "truncated payload")],
        Registry.init, false) := by
  constructor
  · exact ((C10_decode_failure_closes_connection Registry.init [10] 7 [0, 0, 3] []).1
      "truncated payload" rfl).2
  · have h := ((C10_decode_failure_closes_connection Registry.init [10] 8 [] []).2.2.2.1
      "truncated payload" rfl).2
    rw [h]
    rfl
